import Mathlib

/-!
Verification of the beanstalkt client protocol engine (beanstalkt/beanstalkt.py)
against its natural-language specification.

The embedding is shallow: each Python function of the engine is translated to a
computable Lean definition over explicit state, and the properties of the spec
are proved as theorems about those definitions.  Byte strings are modelled as
`List Nat`, decoded text as `String`, and the Python container operations used
by the code (str.split, str.strip, set.add, set.remove, deque) are given small
faithful models below.
-/

namespace Beanstalkt

/-! ## Python string primitives -/

/-- Model of Python `str.split()` with no arguments: split on runs of
whitespace and drop the empty chunks. -/
def pySplitWs (s : String) : List String :=
  ((s.toList.splitOnP (fun c => c.isWhitespace)).map String.mk).filter (fun t => t ≠ "")

/-- Model of Python `str.split(sep)` for a one-character separator: split at
every occurrence, keeping empty chunks. -/
def pySplitChar (s : String) (sep : Char) : List String :=
  (s.toList.splitOn sep).map String.mk

/-- Model of Python `str.isdigit()` on ASCII data: non-empty and all digits. -/
def pyIsDigit (s : String) : Bool :=
  !s.toList.isEmpty && s.toList.all Char.isDigit

/-- Decimal value of a digit string. -/
def digitsToNat (l : List Char) : Nat :=
  l.foldl (fun n c => n * 10 + (c.toNat - 48)) 0

/-- Model of Python `int(s)` on a non-negative decimal token, as used by the
client on the numeric tokens of a reply; `none` models the `ValueError` raised
on a non-numeric token. -/
def pyInt? (s : String) : Option Nat :=
  if pyIsDigit s then some (digitsToNat s.toList) else none

/-- Model of Python `str.strip()`: drop whitespace from both ends. -/
def pyStrip (s : String) : String :=
  String.mk (((s.toList.dropWhile Char.isWhitespace).reverse.dropWhile
      Char.isWhitespace).reverse)

/-- Model of Python `s.startswith(pre)`. -/
def pyStartsWith (s pre : String) : Bool :=
  s.toList.take pre.toList.length = pre.toList

/-- Model of Python `s[2:]`. -/
def pyDropTwo (s : String) : String :=
  String.mk (s.toList.drop 2)

/-- Model of Python `b[:-2]` on a byte string: drop the last two bytes. -/
def pyDropLastTwo (l : List Nat) : List Nat :=
  l.take (l.length - 2)

/-- Remove the first dot of a character list, if any. -/
def removeFirstDotL : List Char → List Char
  | [] => []
  | c :: cs => if c = '.' then cs else c :: removeFirstDotL cs

/-- Model of Python `v.replace(".", "", 1)`: remove the first occurrence of
the dot, if any. -/
def pyRemoveFirstDot (s : String) : String :=
  String.mk (removeFirstDotL s.toList)

/-! ## Request descriptors (class Bunch instances built by the command methods)

A `Bunch` gives every unset attribute the value `None`; the fields below use
`[]`, `none` and `false` for the unset defaults, which the engine code treats
identically (`if req.ok and ...`, `if req.body`, `if not req.read_body`). -/

structure Request where
  cmd : String := ""
  body : Option (List Nat) := none
  ok : List String := []
  err : List String := []
  read_value : Bool := false
  read_body : Bool := false
  parse_yaml : Bool := false
deriving Repr, DecidableEq

/-- Request built by `Client.put`. -/
def put_request (priority delay ttr : Nat) (body : List Nat) : Request :=
  { cmd := "put " ++ toString priority ++ " " ++ toString delay ++ " "
      ++ toString ttr ++ " " ++ toString body.length,
    ok := ["INSERTED"], err := ["BURIED", "JOB_TOO_BIG", "DRAINING"],
    body := some body, read_value := true }

/-- Request built by `Client.use`. -/
def use_request (name : String) : Request :=
  { cmd := "use " ++ name, ok := ["USING"], read_value := true }

/-- Request built by `Client.reserve`. -/
def reserve_request (timeout : Option Nat) : Request :=
  { cmd := match timeout with
      | some t => "reserve-with-timeout " ++ toString t
      | none => "reserve",
    ok := ["RESERVED"], err := ["DEADLINE_SOON", "TIMED_OUT"],
    read_body := true }

/-- Request built by `Client.bury`. -/
def bury_request (job_id priority : Nat) : Request :=
  { cmd := "bury " ++ toString job_id ++ " " ++ toString priority,
    ok := ["BURIED"], err := ["NOT_FOUND"] }

/-- Request built by `Client.watch`. -/
def watch_request (name : String) : Request :=
  { cmd := "watch " ++ name, ok := ["WATCHING"], read_value := true }

/-- Request built by `Client.ignore`. -/
def ignore_request (name : String) : Request :=
  { cmd := "ignore " ++ name, ok := ["WATCHING"], err := ["NOT_IGNORED"],
    read_value := true }

/-- Request built by `Client.stats`. -/
def stats_request : Request :=
  { cmd := "stats", ok := ["OK"], read_body := true, parse_yaml := true }

/-! ## Error classification (the if/elif chain at the top of Client._recv) -/

/-- The five exception classes of beanstalkt. -/
inductive ErrKind
  | buried
  | timedOut
  | deadlineSoon
  | commandFailed
  | unexpectedResponse
deriving Repr, DecidableEq

/-- The classification chain of `Client._recv`: `none` is success (no error
object is created), `some k` is the exception class raised for the status.
The first guard is the Python test `req.ok and status in req.ok`. -/
def classify (req : Request) (status : String) : Option ErrKind :=
  if req.ok ≠ [] ∧ status ∈ req.ok then none
  else if status = "BURIED" then some .buried
  else if status = "TIMED_OUT" then some .timedOut
  else if status = "DEADLINE_SOON" then some .deadlineSoon
  else if req.err ≠ [] ∧ status ∈ req.err then some .commandFailed
  else some .unexpectedResponse

/-- The six ordered rules of the specification, written as a relation on the
outcome: rule i applies only when the guards of rules 1..i-1 fail.  This is
the statement of the classifier taken from the words of the spec, to be
compared with `classify`, the definition taken from the code. -/
def classifierSpec (ok err : List String) (status : String)
    (o : Option ErrKind) : Prop :=
  (status ∈ ok ∧ o = none)
  ∨ (status ∉ ok ∧ status = "BURIED" ∧ o = some .buried)
  ∨ (status ∉ ok ∧ status ≠ "BURIED" ∧ status = "TIMED_OUT"
      ∧ o = some .timedOut)
  ∨ (status ∉ ok ∧ status ≠ "BURIED" ∧ status ≠ "TIMED_OUT"
      ∧ status = "DEADLINE_SOON" ∧ o = some .deadlineSoon)
  ∨ (status ∉ ok ∧ status ≠ "BURIED" ∧ status ≠ "TIMED_OUT"
      ∧ status ≠ "DEADLINE_SOON" ∧ status ∈ err ∧ o = some .commandFailed)
  ∨ (status ∉ ok ∧ status ≠ "BURIED" ∧ status ≠ "TIMED_OUT"
      ∧ status ≠ "DEADLINE_SOON" ∧ status ∉ err ∧ o = some .unexpectedResponse)

lemma classifierSpec_iff (req : Request) (status : String) (o : Option ErrKind) :
    classifierSpec req.ok req.err status o ↔ o = classify req status := by
  unfold classifierSpec classify
  by_cases h1 : status ∈ req.ok
  · have hne : req.ok ≠ [] := by
      intro he
      rw [he] at h1
      simp at h1
    simp [h1, hne]
  · by_cases h2 : status = "BURIED"
    · subst h2
      simp [h1]
    · by_cases h3 : status = "TIMED_OUT"
      · subst h3
        simp [h1, h2]
      · by_cases h4 : status = "DEADLINE_SOON"
        · subst h4
          simp [h1, h2, h3]
        · by_cases h5 : status ∈ req.err
          · have hne : req.err ≠ [] := by
              intro he
              rw [he] at h5
              simp at h5
            simp [h1, h2, h3, h4, h5, hne]
          · simp [h1, h2, h3, h4, h5]

/-! ## Mini-YAML decoder (Client._parse_yaml) -/

/-- Scalar values produced by the conversion in `Client._parse_yaml`.  A float
is kept as its source text: the claims concern only which branch of the
conversion fires, never floating-point arithmetic. -/
inductive Scalar
  | int (n : Nat)
  | float (text : String)
  | str (s : String)
deriving Repr, DecidableEq

/-- The value conversion of `Client._parse_yaml`, from the code:
`(float(v) if "." in v else int(v)) if v.replace(".", "", 1).isdigit() else v`. -/
def conv (v : String) : Scalar :=
  if pyIsDigit (pyRemoveFirstDot v) then
    (if v.toList.contains '.' then .float v else .int (digitsToNat v.toList))
  else .str v

/-- The value conversion as the spec words it: an integer when the value is
digits only, a float when it is digits with a single dot, a string otherwise. -/
def convSpec (v : String) : Scalar :=
  if pyIsDigit v then .int (digitsToNat v.toList)
  else if v.toList.count '.' = 1
      ∧ v.toList.filter (fun c => !(c == '.')) ≠ []
      ∧ v.toList.all (fun c => c.isDigit || c == '.') = true then .float v
  else .str v

/-- Decoded YAML body: a flat list of strings or a flat mapping. -/
inductive YamlBody
  | list (items : List String)
  | dict (pairs : List (String × Scalar))
deriving Repr, DecidableEq

/-- The content lines of a YAML payload: `data.split("\n")[1:-1]`. -/
def yamlContentLines (data : String) : List String :=
  ((pySplitChar data '\n').drop 1).dropLast

/-- One mapping line: the generator `(k, conv(v.strip())) for k, v in
(s.split(":") for s in spl)`.  Unpacking `k, v` raises `ValueError` unless
the split yields exactly two parts, modelled by `none`. -/
def kvPair (s : String) : Option (String × Scalar) :=
  match pySplitChar s ':' with
  | [k, v] => some (k, conv (pyStrip v))
  | _ => none

/-- The mapping-line semantics the claim words describe: split ONCE on the
first colon — the key is the text before it, the value everything after it
(Python `s.split(":", 1)`), then trim and convert the value.  Stated from the
words of the spec, for comparison with `kvPair`, the behaviour of the code:
the two agree on lines with exactly one colon, and disagree on a line whose
value itself contains a colon, where the code raises ValueError. -/
def kvPairSpec (s : String) : Option (String × Scalar) :=
  match pySplitChar s ':' with
  | [] => none
  | [_] => none
  | k :: rest => some (k, conv (pyStrip (String.intercalate ":" rest)))

/-- All mapping lines, failing as soon as one line does. -/
def kvLines : List String → Option (List (String × Scalar))
  | [] => some []
  | s :: rest =>
    match kvPair s, kvLines rest with
    | some p, some ps => some (p :: ps)
    | _, _ => none

/-- Model of `Client._parse_yaml` on the decoded body text.  `none` models the
IndexError on `spl[0]` when there are no content lines, and the ValueError
of the mapping branch on a line that does not split into exactly two parts. -/
def _parse_yaml (data : String) : Option YamlBody :=
  match yamlContentLines data with
  | [] => none
  | l0 :: rest =>
    if pyStartsWith l0 "- " then
      some (.list ((l0 :: rest).map pyDropTwo))
    else
      (kvLines (l0 :: rest)).map .dict

/-! ## Response decoder (Client._recv and Client._recv_body) -/

/-- The body attached to a response by `Client._recv_body`: either the job
dict `ObjectDict(id=resp.job_id, body=data)`, or the raw bytes that are about
to be handed to `Client._parse_yaml` when the request asked for YAML. -/
inductive BodyVal
  | jobBody (id : Option Nat) (bytes : List Nat)
  | yamlBytes (bytes : List Nat)
deriving Repr, DecidableEq

/-- The branch of `Client._recv_body` choosing between YAML decoding and the
job dict. -/
def recvBodyVal (req : Request) (job_id : Option Nat) (bytes : List Nat) :
    BodyVal :=
  if req.parse_yaml then .yamlBytes bytes else .jobBody job_id bytes

/-- The response object assembled by `Client._recv`. -/
structure Resp where
  status : String
  values : List String
  error : Option ErrKind
  job_id : Option Nat := none
  body : Option BodyVal := none
deriving Repr, DecidableEq

/-- The first step of `Client._recv`: `spl = data.decode("utf8").split()`
then `status, values = spl[0], spl[1:]`; `none` models the IndexError on an
empty token list. -/
def statusLine (data : String) : Option (String × List String) :=
  match pySplitWs data with
  | [] => none
  | status :: values => some (status, values)

/-- Model of `Client._recv`: `data` is the status line read from the stream,
`stream` the bytes still readable after it.  Returns the response delivered to
`_do_callback` together with the bytes left unread, or `none` when the Python
code raises (IndexError on a bare line or on missing values, ValueError from
`int()`) or when the stream holds fewer bytes than `read_bytes` asks for. -/
def _recv (req : Request) (data : String) (stream : List Nat) :
    Option (Resp × List Nat) :=
  match statusLine data with
  | none => none
  | some (status, values) =>
    let error := classify req status
    if error.isSome ∨ req.read_body = false then
      some ({ status := status, values := values, error := error }, stream)
    else
      match values with
      | [v0, v1] =>
        match pyInt? v0, pyInt? v1 with
        | some job_id, some size =>
          if size + 2 ≤ stream.length then
            some ({ status := status, values := values, error := error,
                    job_id := some job_id,
                    body := some (recvBodyVal req (some job_id)
                      (pyDropLastTwo (stream.take (size + 2)))) },
                  stream.drop (size + 2))
          else none
        | _, _ => none
      | v0 :: _ =>
        match pyInt? v0 with
        | some size =>
          if size + 2 ≤ stream.length then
            some ({ status := status, values := values, error := error,
                    body := some (recvBodyVal req none
                      (pyDropLastTwo (stream.take (size + 2)))) },
                  stream.drop (size + 2))
          else none
        | none => none
      | [] => none

/-! ## Callback delivery (Client._do_callback) -/

/-- The Python value passed to a completion callback: `None`, an integer, a
string, an exception instance (carrying request status and values), or a body. -/
inductive PyObj
  | pyNone
  | pyInt (n : Nat)
  | pyStr (s : String)
  | pyErr (kind : ErrKind) (status : String) (values : List String)
  | pyBody (b : BodyVal)
deriving Repr, DecidableEq

/-- Whether the object is an exception instance
(Python `isinstance(resp, Exception)`). -/
def isPyErr : PyObj → Bool
  | .pyErr _ _ _ => true
  | _ => false

/-- The object computed by `Client._do_callback` for the callback: the error
when there is one, else the first value as int or string for a `read_value`
request (`none` models the IndexError when there is no value), else the body
for a `read_body` request, else `None`. -/
def _do_callback_obj (req : Request) (r : Resp) : Option PyObj :=
  match r.error with
  | some e => some (.pyErr e r.status r.values)
  | none =>
    if req.read_value then
      match r.values with
      | [] => none
      | v :: _ =>
        some (if pyIsDigit v then .pyInt (digitsToNat v.toList) else .pyStr v)
    else if req.read_body then
      match r.body with
      | some b => some (.pyBody b)
      | none => some .pyNone
    else some .pyNone

/-- One full interaction of a bodyless (value or void) request: the reply line
is decoded by `_recv` (no body bytes are read because `read_body` is unset or
an error was classified) and `_do_callback` computes the callback argument. -/
def interact_reply (req : Request) (line : String) : Option PyObj :=
  match _recv req line [] with
  | some (r, _) => _do_callback_obj req r
  | none => none

/-! ## Client state (the attributes set in Client.__init__) and the session
commands use/watch/ignore, plus connect -/

/-- An IOStream: an identity and its closed flag. -/
structure StreamSt where
  sid : Nat
  closedFlag : Bool
deriving Repr, DecidableEq

/-- The mutable attributes of a `Client`.  `_using` is a `PyObj` because
`Client.use` assigns the callback result (an int or a string) to it. -/
structure ClientState where
  _stream : Option StreamSt
  _socket : Option Nat
  _using : PyObj
  _watching : List String
  _queue : List Nat
  _talking : Bool
deriving Repr, DecidableEq

/-- The state after `Client.__init__`. -/
def initClient : ClientState :=
  { _stream := none, _socket := none, _using := .pyStr "default",
    _watching := ["default"], _queue := [], _talking := false }

/-- Model of `Client.closed`: `not self._stream or self._stream.closed()`. -/
def closed (c : ClientState) : Bool :=
  match c._stream with
  | none => true
  | some st => st.closedFlag

/-- Model of Python `set.add` on the watched-tube set (represented as a
duplicate-free list in insertion order). -/
def pySetAdd (s : List String) (x : String) : List String :=
  if x ∈ s then s else s ++ [x]

/-- Model of `Client.connect`: a no-op when the connection is not closed,
otherwise reset the talking flag and install a fresh socket and stream
(both named by the fresh identity `fresh`). -/
def connect (c : ClientState) (fresh : Nat) : ClientState :=
  if closed c = false then c
  else { c with _talking := false, _socket := some fresh,
                _stream := some ⟨fresh, false⟩ }

/-- Model of the `Client.watch` coroutine given the reply line of the server:
after the interaction, the name is added to the local watch list
unconditionally — the code has no success test before `self._watching.add`. -/
def watch_method (c : ClientState) (name : String) (line : String) :
    Option (ClientState × PyObj) :=
  match interact_reply (watch_request name) line with
  | none => none
  | some resp => some ({ c with _watching := pySetAdd c._watching name }, resp)

/-- Model of the `Client.ignore` coroutine given the reply line of the server:
after the interaction, `if name in self._watching: self._watching.remove(name)`
runs unconditionally — there is no success test. -/
def ignore_method (c : ClientState) (name : String) (line : String) :
    Option (ClientState × PyObj) :=
  match interact_reply (ignore_request name) line with
  | none => none
  | some resp =>
    some ({ c with _watching :=
              if name ∈ c._watching then c._watching.erase name
              else c._watching }, resp)

/-- Model of the `Client.use` coroutine given the reply line of the server:
`if not isinstance(resp, Exception): self._using = resp`. -/
def use_method (c : ClientState) (name : String) (line : String) :
    Option (ClientState × PyObj) :=
  match interact_reply (use_request name) line with
  | none => none
  | some resp =>
    some (if isPyErr resp then c else { c with _using := resp }, resp)

/-! ## Request pipeline (Client._interact, Client._process_queue and the
requeue in Client._do_callback)

Requests are identified by numbers; the state separates the FIFO queue, the
talking flag, the requests written to the stream but not yet fully answered
(`inflight` — a list so that the single-flight bound is a theorem, not a
type-level assumption), and the completions already delivered in order. -/

structure PipelineState where
  queue : List Nat
  talking : Bool
  inflight : List Nat
  completed : List Nat
deriving Repr, DecidableEq

/-- The pipeline state after `Client.__init__`. -/
def initPipeline : PipelineState := ⟨[], false, [], []⟩

/-- Model of `Client._process_queue`: return if talking or the queue is empty;
otherwise pop the head, set talking, and write the request to the stream. -/
def _process_queue (s : PipelineState) : PipelineState :=
  match s.queue with
  | [] => s
  | r :: rest =>
    if s.talking then s
    else { s with queue := rest, talking := true,
                  inflight := s.inflight ++ [r] }

/-- Model of `Client._interact`: append the request to the FIFO queue, then
run `_process_queue`. -/
def _interact (s : PipelineState) (r : Nat) : PipelineState :=
  _process_queue { s with queue := s.queue ++ [r] }

/-- Model of the completion path: when the reply of the in-flight request has
been fully decoded, `Client._do_callback` clears the talking flag, delivers
the callback, and schedules `_process_queue`. -/
def _reply_done (s : PipelineState) : PipelineState :=
  match s.inflight with
  | [] => s
  | r :: rest =>
    _process_queue { s with talking := false, inflight := rest,
                            completed := s.completed ++ [r] }

/-- External events driving the pipeline: a caller submitting a request, or
the server completing the current one. -/
inductive PEvent
  | submit (r : Nat)
  | reply
deriving Repr, DecidableEq

/-- One event step. -/
def pstep (s : PipelineState) : PEvent → PipelineState
  | .submit r => _interact s r
  | .reply => _reply_done s

/-- Run of the pipeline over a list of events. -/
def prun : PipelineState → List PEvent → PipelineState
  | s, [] => s
  | s, e :: es => prun (pstep s e) es

/-- The requests submitted in a list of events, in submission order. -/
def submissions : List PEvent → List Nat
  | [] => []
  | .submit r :: es => r :: submissions es
  | .reply :: es => submissions es

/-- The pipeline invariant: at most one request in flight, an idle pipeline
has an empty queue, and the delivered completions followed by the in-flight
request followed by the queue are exactly the submissions in order. -/
def pipelineInv (s : PipelineState) (subs : List Nat) : Prop :=
  s.inflight.length ≤ 1
  ∧ (s.talking = false → s.inflight = [] ∧ s.queue = [])
  ∧ s.completed ++ s.inflight ++ s.queue = subs

lemma pipelineInv_interact {s : PipelineState} {subs : List Nat}
    (h : pipelineInv s subs) (r : Nat) :
    pipelineInv (_interact s r) (subs ++ [r]) := by
  obtain ⟨q, t, inf, comp⟩ := s
  obtain ⟨hlen, hidle, hcat⟩ := h
  simp only [pipelineInv] at hlen hidle hcat ⊢
  cases t with
  | false =>
    obtain ⟨hif, hq⟩ := hidle rfl
    subst hif
    subst hq
    simp only [List.nil_append, List.append_nil] at hcat
    subst hcat
    refine ⟨?_, ?_, ?_⟩ <;> simp [_interact, _process_queue]
  | true =>
    subst hcat
    cases q with
    | nil =>
      refine ⟨?_, ?_, ?_⟩ <;> simp [_interact, _process_queue, hlen]
    | cons q0 qs =>
      refine ⟨?_, ?_, ?_⟩ <;> simp [_interact, _process_queue, hlen]

lemma pipelineInv_reply {s : PipelineState} {subs : List Nat}
    (h : pipelineInv s subs) :
    pipelineInv (_reply_done s) subs := by
  obtain ⟨q, t, inf, comp⟩ := s
  obtain ⟨hlen, hidle, hcat⟩ := h
  simp only [pipelineInv] at hlen hidle hcat ⊢
  cases inf with
  | nil => exact ⟨hlen, hidle, hcat⟩
  | cons r rest =>
    have hrest : rest = [] := by
      simpa using hlen
    subst hrest
    subst hcat
    cases q with
    | nil =>
      refine ⟨?_, ?_, ?_⟩ <;> simp [_reply_done, _process_queue]
    | cons q0 qs =>
      refine ⟨?_, ?_, ?_⟩ <;> simp [_reply_done, _process_queue]

lemma pipelineInv_prun {s : PipelineState} {subs : List Nat}
    (h : pipelineInv s subs) (es : List PEvent) :
    pipelineInv (prun s es) (subs ++ submissions es) := by
  induction es generalizing s subs with
  | nil => simpa [prun, submissions] using h
  | cons e es ih =>
    cases e with
    | submit r =>
      have h2 := ih (pipelineInv_interact h r)
      simpa [prun, pstep, submissions, List.append_assoc] using h2
    | reply =>
      have h2 := ih (pipelineInv_reply h)
      simpa [prun, pstep, submissions] using h2

/-! ## Reconnect resync (Client._reconnect and Client._reconnected)

The do_next chain of `Client._reconnected` was written for a callback-passing
API: each command method is called with a completion callback as a second
positional argument, and the chain continues when that callback fires.  In the
code as it stands, however, `connect`, `watch`, `ignore` and `use` are
coroutine methods whose signatures take no callback parameter, so each of
those calls raises TypeError for the extra positional argument; the coroutine
wrapper captures the TypeError into a failed future that nobody retrieves.
Both semantics are modelled: the intended one (the behaviour the spec
describes), and the actual one in which a call whose positional argument count
does not match the parameter count of the method issues nothing and never
continues. -/

/-- Observable steps of the resync sequence: commands issued to the server
through the request pipeline, and the user notification. -/
inductive ResyncEvent
  | cmdWatch (t : String)
  | cmdIgnore (t : String)
  | cmdUse (t : String)
  | notify
deriving Repr, DecidableEq

/-- Parameter count of `Client.connect(self)` in the source. -/
def connect_paramCount : Nat := 1

/-- Parameter count of `Client.watch(self, name)` in the source. -/
def watch_paramCount : Nat := 2

/-- Parameter count of `Client.ignore(self, name)` in the source. -/
def ignore_paramCount : Nat := 2

/-- Parameter count of `Client.use(self, name)` in the source. -/
def use_paramCount : Nat := 2

/-- Positional arguments of the call `self.connect(self._reconnected)` in
`Client._reconnect`. -/
def reconnect_connect_argCount : Nat := 2

/-- Positional arguments of the call `self.watch(watch.pop(), do_next)` in
`Client._reconnected`. -/
def reconnected_watch_argCount : Nat := 3

/-- Positional arguments of the call `self.ignore(ignore.pop(), do_next)` in
`Client._reconnected`. -/
def reconnected_ignore_argCount : Nat := 3

/-- Positional arguments of the call `self.use(self._using, self._reconnect_cb)`
in `Client._reconnected`. -/
def reconnected_use_argCount : Nat := 3

/-- The do_next chain of `Client._reconnected` under the intended callback
semantics: issue `watch` for each tube of the watch set, then `ignore` for
each tube of the ignore set, then `use` when the used tube is not default
(with the user callback as its completion), else notify the user directly.
`w` and `ig` enumerate the two sets computed at the top of `_reconnected`,
`cb` tells whether a reconnect callback is registered. -/
def do_next_tail (u : String) (cb : Bool) : List String → List ResyncEvent
  | t :: ts => .cmdIgnore t :: do_next_tail u cb ts
  | [] =>
    if u ≠ "default" then .cmdUse u :: (if cb then [.notify] else [])
    else if cb then [.notify] else []

def do_next_intended (w ig : List String) (u : String) (cb : Bool) :
    List ResyncEvent :=
  match w with
  | t :: ts => .cmdWatch t :: do_next_intended ts ig u cb
  | [] => do_next_tail u cb ig

/-- The do_next chain as the code executes: a step runs only when the
positional argument count of its method call matches the parameter count of
the method; otherwise the call raises TypeError inside the coroutine wrapper,
the command is never written, and the chain stops with no notification. -/
def do_next_tail_actual (u : String) (cb : Bool) : List String → List ResyncEvent
  | t :: ts =>
    if reconnected_ignore_argCount = ignore_paramCount then
      .cmdIgnore t :: do_next_tail_actual u cb ts
    else []
  | [] =>
    if u ≠ "default" then
      if reconnected_use_argCount = use_paramCount then
        .cmdUse u :: (if cb then [.notify] else [])
      else []
    else if cb then [.notify] else []

def do_next_actual (w ig : List String) (u : String) (cb : Bool) :
    List ResyncEvent :=
  match w with
  | t :: ts =>
    if reconnected_watch_argCount = watch_paramCount then
      .cmdWatch t :: do_next_actual ts ig u cb
    else []
  | [] => do_next_tail_actual u cb ig

/-- The watch set computed in `_reconnected`:
`self._watching.difference(["default"])`. -/
def resyncWatchSet (watching : List String) : List String :=
  watching.filter (fun t => t ≠ "default")

/-- The ignore set computed in `_reconnected`:
`set(["default"]).difference(self._watching)`. -/
def resyncIgnoreSet (watching : List String) : List String :=
  if "default" ∈ watching then [] else ["default"]

/-- The full resync sequence after an unrequested disconnect, intended
semantics: reconnect succeeds and `_reconnected` drives the do_next chain. -/
def reconnect_resync_intended (watching : List String) (u : String)
    (cb : Bool) : List ResyncEvent :=
  do_next_intended (resyncWatchSet watching) (resyncIgnoreSet watching) u cb

/-- The full resync sequence as the code executes: `_reconnect` itself calls
`self.connect(self._reconnected)` with an extra positional argument, so when
that count does not match `connect(self)` the whole sequence never starts. -/
def reconnect_resync_actual (watching : List String) (u : String)
    (cb : Bool) : List ResyncEvent :=
  if reconnect_connect_argCount = connect_paramCount then
    do_next_actual (resyncWatchSet watching) (resyncIgnoreSet watching) u cb
  else []

/-! ## Helper lemmas for the framing theorems -/

lemma pyDropLastTwo_take (stream : List Nat) (L : Nat)
    (h : L + 2 ≤ stream.length) :
    pyDropLastTwo (stream.take (L + 2)) = stream.take L := by
  unfold pyDropLastTwo
  rw [List.length_take, min_eq_left h]
  rw [List.take_take, Nat.add_sub_cancel, min_eq_left (by omega)]

/-! ## Claim theorems -/

/-- C1.  Single-flight and FIFO ordering: over every event sequence driving
the request pipeline, at most one request is in flight (written but not yet
fully answered) at any instant, and the delivered completions followed by the
in-flight request followed by the still-queued requests are exactly the
submitted requests in submission order — so requests are dispatched in FIFO
order, every submission is completed at most once and never dropped, and
completions are delivered in submission order. -/
theorem pipeline_single_flight_fifo (es : List PEvent) :
    (prun initPipeline es).inflight.length ≤ 1
    ∧ (prun initPipeline es).completed ++ (prun initPipeline es).inflight
        ++ (prun initPipeline es).queue = submissions es := by
  have h0 : pipelineInv initPipeline [] := by
    refine ⟨?_, ?_, ?_⟩ <;> simp [initPipeline]
  have h := pipelineInv_prun h0 es
  rw [List.nil_append] at h
  exact ⟨h.1, h.2.2⟩

/-- C2.  Error classification is total and follows the six spec rules in
fixed order: the rule relation of the spec holds of exactly one outcome for
every (okStatuses, errStatuses, status) triple, that outcome is the one the
code computes, and in particular a BURIED reply to the bury command (which
declares BURIED as an ok-status) is success, not a Buried error. -/
theorem classifier_total_ordered (req : Request) (status : String) :
    (∀ o, classifierSpec req.ok req.err status o ↔ o = classify req status)
    ∧ (∃! o, classifierSpec req.ok req.err status o)
    ∧ (∀ job_id priority,
        classify (bury_request job_id priority) "BURIED" = none) := by
  refine ⟨classifierSpec_iff req status, ?_, ?_⟩
  · exact ⟨classify req status, (classifierSpec_iff req status _).mpr rfl,
      fun y hy => (classifierSpec_iff req status y).mp hy⟩
  · intro j p
    simp [classify, bury_request]

/-- C3.  Framing correctness: on a success reply for a body-carrying request,
with two numeric tokens (identifier and length L) the decoder reads exactly
L + 2 bytes past the status line and delivers the first L of them as the body
(the trailing two CRLF bytes are discarded); with one numeric token L (the
YAML shape) the same L + 2 read and 2-byte discard happens before the
mini-YAML decode. -/
theorem recv_framing_correct (req : Request) (data : String)
    (stream : List Nat) (status : String) (values : List String)
    (hsplit : pySplitWs data = status :: values)
    (hok : classify req status = none)
    (hbody : req.read_body = true) :
    (∀ v0 v1 i L, values = [v0, v1] → pyInt? v0 = some i →
        pyInt? v1 = some L → L + 2 ≤ stream.length →
        _recv req data stream =
          some ({ status := status, values := values, error := none,
                  job_id := some i,
                  body := some (recvBodyVal req (some i) (stream.take L)) },
                stream.drop (L + 2)))
    ∧ (∀ v0 L, values = [v0] → pyInt? v0 = some L → L + 2 ≤ stream.length →
        _recv req data stream =
          some ({ status := status, values := values, error := none,
                  body := some (recvBodyVal req none (stream.take L)) },
                stream.drop (L + 2))) := by
  constructor
  · rintro v0 v1 i L rfl hi hL hlen
    simp only [_recv, statusLine, hsplit, hok, hbody]
    simp [hi, hL, hlen, pyDropLastTwo_take stream L hlen]
  · rintro v0 L rfl hL hlen
    simp only [_recv, statusLine, hsplit, hok, hbody]
    simp [hL, hlen, pyDropLastTwo_take stream L hlen]

/-- Witness for C3 at a concrete reserve interaction: reply line
RESERVED 7 3, stream abc CRLF plus one later byte; the body is abc and
exactly five bytes are consumed. -/
theorem recv_framing_correct_witness :
    _recv (reserve_request none) "RESERVED 7 3\r\n" [97, 98, 99, 13, 10, 55] =
      some ({ status := "RESERVED", values := ["7", "3"], error := none,
              job_id := some 7,
              body := some (recvBodyVal (reserve_request none) (some 7)
                [97, 98, 99]) },
            [55]) :=
  ((recv_framing_correct (reserve_request none) "RESERVED 7 3\r\n"
      [97, 98, 99, 13, 10, 55] "RESERVED" ["7", "3"] (by decide) (by decide)
      (by decide)).1 "7" "3" 7 3 rfl (by decide) (by decide)
      (by decide)).trans (by decide)

/-- C6.  Error replies never read a body: whenever classification of the
status line yields an error, the decoder consumes no body bytes (the stream
is returned untouched) and the completion carries the error immediately,
whatever the request descriptor (including read_body requests). -/
theorem recv_error_no_body (req : Request) (data : String) (stream : List Nat)
    (status : String) (values : List String) (e : ErrKind)
    (hsplit : pySplitWs data = status :: values)
    (herr : classify req status = some e) :
    _recv req data stream =
      some ({ status := status, values := values, error := some e }, stream) := by
  simp [_recv, statusLine, hsplit, herr]

/-- Witness for C6: a TIMED_OUT reply to reserve (a read_body request)
consumes none of the three bytes sitting in the stream. -/
theorem recv_error_no_body_witness :
    _recv (reserve_request none) "TIMED_OUT\r\n" [1, 2, 3] =
      some ({ status := "TIMED_OUT", values := [],
              error := some .timedOut }, [1, 2, 3]) :=
  recv_error_no_body (reserve_request none) "TIMED_OUT\r\n" [1, 2, 3]
    "TIMED_OUT" [] .timedOut (by decide) (by decide)

/-- C9.  Client.connect is a no-op on an open connection: when closed() is
false it returns immediately, leaving the whole client state (stream, socket,
queue, talking flag, used tube, watched set) unchanged; a new socket and
stream are installed only when the connection is closed or never existed. -/
theorem connect_noop_when_open (c : ClientState) (fresh : Nat) :
    (closed c = false → connect c fresh = c)
    ∧ (closed c = true → connect c fresh =
        { c with _talking := false, _socket := some fresh,
                 _stream := some ⟨fresh, false⟩ }) := by
  constructor
  · intro h
    simp [connect, h]
  · intro h
    simp [connect, h]

/-- C10.  The decoder is partial exactly at the indexing steps the code
performs: the status-line parse is undefined precisely when the reply line
has no whitespace token (and then the whole of _recv is undefined), the
mini-YAML decode is undefined when the payload has no content line between
its first and last lines; a bare CRLF status line and an empty YAML payload
are concrete points outside the domain. -/
theorem decoder_partial_domain (req : Request) (stream : List Nat)
    (data ydata : String) :
    (statusLine data = none ↔ pySplitWs data = [])
    ∧ (pySplitWs data = [] → _recv req data stream = none)
    ∧ (yamlContentLines ydata = [] → _parse_yaml ydata = none)
    ∧ statusLine "\r\n" = none
    ∧ _parse_yaml "" = none := by
  refine ⟨?_, ?_, ?_, by decide, by decide⟩
  · unfold statusLine
    cases h : pySplitWs data <;> simp
  · intro h
    simp [_recv, statusLine, h]
  · intro h
    simp [_parse_yaml, h]

/-! ## Session-state claims -/

lemma classify_ignore_not_ignored (name : String) :
    classify (ignore_request name) "NOT_IGNORED" = some .commandFailed := by
  simp [classify, ignore_request]

lemma interact_ignore_not_ignored (name : String) :
    interact_reply (ignore_request name) "NOT_IGNORED\r\n" =
      some (.pyErr .commandFailed "NOT_IGNORED" []) := by
  have hs : pySplitWs "NOT_IGNORED\r\n" = ["NOT_IGNORED"] := by decide
  simp [interact_reply, _recv, statusLine, hs, classify_ignore_not_ignored,
    _do_callback_obj]

/-- C4 counterexample: ignoring the only watched tube runs against the claim —
the completion does receive CommandFailed with status NOT_IGNORED, but the
local watched set is mutated anyway: the tube is removed and the set is left
empty, not unchanged. -/
theorem ignore_last_tube_cex :
    ignore_method initClient "default" "NOT_IGNORED\r\n" =
      some ({ initClient with _watching := [] },
            .pyErr .commandFailed "NOT_IGNORED" [])
    ∧ ¬ (({ initClient with _watching := ([] : List String) })._watching
          = initClient._watching) := by
  constructor
  · decide
  · decide

/-- C4 amended: when ignore is called for the only tube in the watched set
and the server replies NOT_IGNORED, the completion receives a CommandFailed
error with status NOT_IGNORED, but the client still removes the tube from the
local watched set, leaving it empty. -/
theorem ignore_last_tube_amended (c : ClientState) (name : String)
    (h : c._watching = [name]) :
    ignore_method c name "NOT_IGNORED\r\n" =
      some ({ c with _watching := [] },
            .pyErr .commandFailed "NOT_IGNORED" []) := by
  simp [ignore_method, interact_ignore_not_ignored, h]

/-- Witness for the amended C4 at the initial client state, whose watched set
is exactly the default tube. -/
theorem ignore_last_tube_amended_witness :
    ignore_method initClient "default" "NOT_IGNORED\r\n" =
      some ({ initClient with _watching := [] },
            .pyErr .commandFailed "NOT_IGNORED" []) :=
  ignore_last_tube_amended initClient "default" rfl

/-- C5 counterexample: watch mutates the local watched set even when the
reply is classified as an error — on an UnexpectedResponse reply to watch foo
the tube foo is added to the watched set, so session state is not mutated
only on confirmed success. -/
theorem watch_mutates_on_error_cex :
    watch_method initClient "foo" "OUT_OF_MEMORY\r\n" =
      some ({ initClient with _watching := ["default", "foo"] },
            .pyErr .unexpectedResponse "OUT_OF_MEMORY" [])
    ∧ ¬ (["default", "foo"] = initClient._watching) := by
  constructor
  · decide
  · decide

/-- C5 amended: only use guards its session-state mutation with a success
test — the used tube changes exactly on non-error replies; watch always adds
the tube to the local watched set and ignore always removes it when present,
whatever the classification of the reply. -/
theorem session_mutation_amended (c : ClientState) (name line : String) :
    (∀ st obj, use_method c name line = some (st, obj) →
        (isPyErr obj = true → st = c)
        ∧ (isPyErr obj = false → st = { c with _using := obj }))
    ∧ (∀ st obj, watch_method c name line = some (st, obj) →
        st._watching = pySetAdd c._watching name)
    ∧ (∀ st obj, ignore_method c name line = some (st, obj) →
        st._watching = if name ∈ c._watching then c._watching.erase name
                       else c._watching) := by
  refine ⟨?_, ?_, ?_⟩
  · intro st obj h
    unfold use_method at h
    cases hr : interact_reply (use_request name) line with
    | none =>
      rw [hr] at h
      exact absurd h (by simp)
    | some resp =>
      rw [hr] at h
      simp only [Option.some.injEq, Prod.mk.injEq] at h
      obtain ⟨h1, h2⟩ := h
      subst h2
      constructor
      · intro he
        rw [he] at h1
        simpa using h1.symm
      · intro he
        rw [he] at h1
        simpa using h1.symm
  · intro st obj h
    unfold watch_method at h
    cases hr : interact_reply (watch_request name) line with
    | none =>
      rw [hr] at h
      exact absurd h (by simp)
    | some resp =>
      rw [hr] at h
      simp only [Option.some.injEq, Prod.mk.injEq] at h
      rw [← h.1]
  · intro st obj h
    unfold ignore_method at h
    cases hr : interact_reply (ignore_request name) line with
    | none =>
      rw [hr] at h
      exact absurd h (by simp)
    | some resp =>
      rw [hr] at h
      simp only [Option.some.injEq, Prod.mk.injEq] at h
      rw [← h.1]

/-- C8.  The reconnect resync diverges from the claim: under the intended
callback semantics described by the spec, a client watching default and foo
and using bar would resync with exactly watch foo then use bar and then the
notification; but the code passes the continuation as an extra positional
argument to the coroutine methods (connect takes one parameter and is called
with two, watch/ignore/use take two and are called with three), so every
resync step raises TypeError inside the coroutine wrapper, and the actual
sequence issues no command and never notifies. -/
theorem reconnect_resync_divergence :
    reconnect_resync_intended ["default", "foo"] "bar" true =
      [.cmdWatch "foo", .cmdUse "bar", .notify]
    ∧ reconnect_resync_actual ["default", "foo"] "bar" true = []
    ∧ reconnect_connect_argCount ≠ connect_paramCount
    ∧ reconnected_watch_argCount ≠ watch_paramCount
    ∧ reconnected_use_argCount ≠ use_paramCount := by
  refine ⟨?_, ?_, ?_, ?_, ?_⟩ <;> decide

/-! ## Mini-YAML claims -/

lemma removeFirstDotL_of_not_mem {l : List Char} (h : '.' ∉ l) :
    removeFirstDotL l = l := by
  induction l with
  | nil => rfl
  | cons c cs ih =>
    have hc : ¬ c = '.' := by
      rintro rfl
      exact h (List.mem_cons_self _ _)
    have hcs : '.' ∉ cs := fun hm => h (List.mem_cons_of_mem c hm)
    simp [removeFirstDotL, hc, ih hcs]

lemma removeFirstDotL_decomp {l : List Char} (h : '.' ∈ l) :
    ∃ a b, '.' ∉ a ∧ l = a ++ '.' :: b ∧ removeFirstDotL l = a ++ b := by
  induction l with
  | nil => cases h
  | cons c cs ih =>
    by_cases hc : c = '.'
    · subst hc
      exact ⟨[], cs, by simp, rfl, by simp [removeFirstDotL]⟩
    · have hm : '.' ∈ cs := by
        rcases List.mem_cons.mp h with h1 | h1
        · exact absurd h1.symm hc
        · exact h1
      obtain ⟨a, b, hna, hl, hr⟩ := ih hm
      refine ⟨c :: a, b, ?_, by rw [hl, List.cons_append], ?_⟩
      · simp only [List.mem_cons, not_or]
        exact ⟨fun he => hc he.symm, hna⟩
      · simp [removeFirstDotL, hc, hr]

lemma toList_mk (m : List Char) : (String.mk m).toList = m := rfl

lemma filter_ne_dot_eq_self {l : List Char} (h : '.' ∉ l) :
    l.filter (fun c => !(c == '.')) = l := by
  rw [List.filter_eq_self]
  intro c hc
  have hne : ¬ c = '.' := fun he => h (he ▸ hc)
  simp [hne]

lemma digit_round_dot_iff (a b : List Char) (hna : '.' ∉ a) :
    (!(a ++ b).isEmpty && (a ++ b).all Char.isDigit) = true ↔
      ((a ++ '.' :: b).count '.' = 1
        ∧ (a ++ '.' :: b).filter (fun c => !(c == '.')) ≠ []
        ∧ (a ++ '.' :: b).all (fun c => c.isDigit || c == '.') = true) := by
  have hfe : ('.' :: b).filter (fun c => !(c == '.')) =
      b.filter (fun c => !(c == '.')) := by
    simp
  constructor
  · intro h
    rw [Bool.and_eq_true, List.all_append, Bool.and_eq_true] at h
    obtain ⟨hne, ha, hb⟩ := h
    have hnb : '.' ∉ b := by
      intro hm
      have := List.all_eq_true.mp hb '.' hm
      simp at this
    refine ⟨?_, ?_, ?_⟩
    · rw [List.count_append, List.count_cons_self,
        List.count_eq_zero.mpr hna, List.count_eq_zero.mpr hnb]
    · rw [List.filter_append, hfe, filter_ne_dot_eq_self hna,
        filter_ne_dot_eq_self hnb]
      intro hab
      rw [hab] at hne
      simp at hne
    · rw [List.all_append, List.all_cons]
      rw [Bool.and_eq_true, Bool.and_eq_true]
      refine ⟨?_, by simp, ?_⟩
      · exact List.all_eq_true.mpr fun c hc => by
          simp [List.all_eq_true.mp ha c hc]
      · exact List.all_eq_true.mpr fun c hc => by
          simp [List.all_eq_true.mp hb c hc]
  · rintro ⟨hcount, hfilter, hall⟩
    rw [List.all_append, List.all_cons, Bool.and_eq_true, Bool.and_eq_true]
      at hall
    obtain ⟨ha, _, hb⟩ := hall
    have hnb : '.' ∉ b := by
      intro hm
      rw [List.count_append, List.count_cons_self,
        List.count_eq_zero.mpr hna] at hcount
      have hpos : 0 < b.count '.' := List.count_pos_iff.mpr hm
      omega
    have hda : a.all Char.isDigit = true :=
      List.all_eq_true.mpr fun c hc => by
        have h1 := List.all_eq_true.mp ha c hc
        have h2 : ¬ c = '.' := fun he => hna (he ▸ hc)
        simpa [h2] using h1
    have hdb : b.all Char.isDigit = true :=
      List.all_eq_true.mpr fun c hc => by
        have h1 := List.all_eq_true.mp hb c hc
        have h2 : ¬ c = '.' := fun he => hnb (he ▸ hc)
        simpa [h2] using h1
    rw [Bool.and_eq_true, List.all_append, Bool.and_eq_true]
    refine ⟨?_, hda, hdb⟩
    rw [List.filter_append, hfe, filter_ne_dot_eq_self hna,
      filter_ne_dot_eq_self hnb] at hfilter
    simpa using hfilter

lemma conv_eq_convSpec (v : String) : conv v = convSpec v := by
  unfold conv convSpec pyIsDigit pyRemoveFirstDot
  simp only [toList_mk]
  by_cases hd : '.' ∈ v.toList
  · obtain ⟨a, b, hna, hl, hr⟩ := removeFirstDotL_decomp hd
    have hcont : v.toList.contains '.' = true := by simpa using hd
    have hall : v.toList.all Char.isDigit = false := by
      cases hh : v.toList.all Char.isDigit
      · rfl
      · have h2 := List.all_eq_true.mp hh '.' hd
        simp at h2
    have hiff := digit_round_dot_iff a b hna
    rw [← hl] at hiff
    rw [hr, hcont, hall]
    rw [if_pos (rfl : (true : Bool) = true)]
    rw [Bool.and_false]
    rw [if_neg (by decide : ¬ ((false : Bool) = true))]
    by_cases hc : (!(a ++ b).isEmpty && (a ++ b).all Char.isDigit) = true
    · rw [if_pos hc, if_pos (hiff.mp hc)]
    · rw [if_neg hc, if_neg (fun h2 => hc (hiff.mpr h2))]
  · have hre : removeFirstDotL v.toList = v.toList :=
      removeFirstDotL_of_not_mem hd
    have hcount : v.toList.count '.' = 0 := List.count_eq_zero.mpr hd
    have hcont : v.toList.contains '.' = false := by simpa using hd
    rw [hre, hcont]
    by_cases hdig : (!v.toList.isEmpty && v.toList.all Char.isDigit) = true
    · rw [if_pos hdig, if_pos hdig]
      simp
    · rw [if_neg hdig, if_neg hdig, hcount]
      simp

/-- C7 counterexample: the claim says every well-formed `key: value` line is
split ONCE on the colon, which on the line `url: http://x` yields the pair
(url, http://x) — `kvPairSpec` computes exactly that.  The code instead
splits on every colon (`s.split(":")`, three parts here) and the two-name
unpacking raises ValueError, so the decode of the well-formed mapping body
is undefined (`none`), not the claimed mapping. -/
theorem parse_yaml_split_once_cex :
    kvPairSpec "url: http://x" = some ("url", .str "http://x")
    ∧ pySplitChar "url: http://x" ':' = ["url", " http", "//x"]
    ∧ kvPair "url: http://x" = none
    ∧ _parse_yaml "---\nurl: http://x\n" = none := by
  refine ⟨?_, ?_, ?_, ?_⟩ <;> decide

/-- C7 amended.  Mini-YAML decoding: when the first content line starts with
a dash and a space, the result is the ordered list of each line with the
two-character marker dropped.  Otherwise each line is split on EVERY colon
and the decode is defined only when that yields exactly two parts (the line
holds exactly one colon): each such line contributes the pair
(key, converted trimmed value); a line with no colon or with a colon inside
the value makes the whole mapping decode undefined (Python ValueError on
unpacking) instead of delivering the split-once pair.  The value conversion
follows the spec exactly: digits only becomes an integer, digits with a
single dot becomes a float, anything else stays a string (the code
conversion `conv` agrees with the spec conversion `convSpec` everywhere). -/
theorem parse_yaml_amended (data : String) :
    (∀ l0 rest, yamlContentLines data = l0 :: rest →
      (pyStartsWith l0 "- " = true →
        _parse_yaml data = some (.list ((l0 :: rest).map pyDropTwo)))
      ∧ (pyStartsWith l0 "- " = false →
          (∀ ps, kvLines (l0 :: rest) = some ps →
            _parse_yaml data = some (.dict ps))
          ∧ (kvLines (l0 :: rest) = none → _parse_yaml data = none)))
    ∧ (∀ s k v, pySplitChar s ':' = [k, v] →
        kvPair s = some (k, convSpec (pyStrip v)))
    ∧ (∀ s, (pySplitChar s ':').length ≠ 2 → kvPair s = none)
    ∧ (∀ v, conv v = convSpec v) := by
  refine ⟨?_, ?_, ?_, conv_eq_convSpec⟩
  · intro l0 rest hlines
    constructor
    · intro hs
      simp [_parse_yaml, hlines, hs]
    · intro hs
      constructor
      · intro ps hkv
        simp [_parse_yaml, hlines, hs, hkv]
      · intro hkv
        simp [_parse_yaml, hlines, hs, hkv]
  · intro s k v hsplit
    simp [kvPair, hsplit, conv_eq_convSpec]
  · intro s hlen
    unfold kvPair
    cases hsp : pySplitChar s ':' with
    | nil => rfl
    | cons k rest =>
      cases rest with
      | nil => rfl
      | cons v rest2 =>
        cases rest2 with
        | nil =>
          exact absurd (show (pySplitChar s ':').length = 2 by simp [hsp]) hlen
        | cons w rest3 => rfl

end Beanstalkt
